import Mathlib

/-!
Verification development for the NetScaler LBaaS plugin driver
(`neutron_lbaas/services/loadbalancer/drivers/netscaler/netscaler_driver.py`).

The driver is embedded shallowly:

* The remote NCC client (`ncc_client.NSClient`) is a collaborator; each of
  its calls either succeeds or raises `NCCException`.  Every driver
  operation therefore takes the remote outcome as an explicit argument
  (`remote_ok : Bool` for create/update/delete, an `Option` result for the
  retrieve calls of the periodic collectors).
* The local state store (the plugin's `update_status` / `_delete_db_*`
  operations) is modelled as association lists keyed by resource id, and
  each driver operation is given denotationally by the trace of effects it
  performs (remote calls issued, status writes, record deletions, appends
  to the pending-create list); `applyEffects` replays a trace on a state.
* The process-wide `VIP_IN_PENDING_CREATE` Python list is the `pending`
  field of `LBState`; Python `list.append` is `++ [x]` and a Python
  `list.remove` (which raises `ValueError` when the element is absent) is
  `list_remove` below.
* Payload construction (`_prepare_*`, `_get_*_network_info`) only shapes
  the request body, which no verified property inspects, so entity records
  carry just the identifier used for paths, status writes and the pending
  list.
* The unbounded `while True` pagination loop of
  `_refresh_all_members_status` is embedded with explicit fuel; fuel
  exhaustion is a distinguished outcome never reached in the theorems.
-/

namespace NSDriver

/-- Local status constant `constants.PENDING_CREATE`. -/
def PENDING_CREATE : String := "PENDING_CREATE"

/-- Local status constant `constants.ACTIVE`. -/
def ACTIVE : String := "ACTIVE"

/-- Local status constant `constants.ERROR`. -/
def ERROR : String := "ERROR"

/-- Source constant `VIPS_RESOURCE = 'vips'`. -/
def VIPS_RESOURCE : String := "vips"

/-- Source constant `VIP_RESOURCE = 'vip'`. -/
def VIP_RESOURCE : String := "vip"

/-- Source constant `POOLS_RESOURCE = 'pools'`. -/
def POOLS_RESOURCE : String := "pools"

/-- Source constant `POOL_RESOURCE = 'pool'`. -/
def POOL_RESOURCE : String := "pool"

/-- Source constant `POOLMEMBERS_RESOURCE = 'members'`. -/
def POOLMEMBERS_RESOURCE : String := "members"

/-- Source constant `POOLMEMBER_RESOURCE = 'member'`. -/
def POOLMEMBER_RESOURCE : String := "member"

/-- Source constant `MONITORS_RESOURCE = 'healthmonitors'`. -/
def MONITORS_RESOURCE : String := "healthmonitors"

/-- Source constant `MONITOR_RESOURCE = 'healthmonitor'`. -/
def MONITOR_RESOURCE : String := "healthmonitor"

/-- Source constant `STATS_RESOURCE = 'stats'`. -/
def STATS_RESOURCE : String := "stats"

/-- The resource path root `'v2.0/lb'` (named `RESOURCE_PREFIX` in the source). -/
def RESOURCE_ROOT : String := "v2.0/lb"

/-- The status path root `'oca/v1'` (named `STATUS_PREFIX` in the source). -/
def STATUS_ROOT : String := "oca/v1"

/-- Source constant `MEMBER_STATUS = 'memberstatus'`. -/
def MEMBER_STATUS : String := "memberstatus"

/-- The single failure signal raised by the NCC client (`ncc_client.NCCException`). -/
inductive NCCException
  | mk
deriving DecidableEq

/-- Python-level errors that can escape the periodic collectors:
`valueError` is raised by `list.remove` on an absent element, `nccError` is
an `NCCException` propagating out of an unprotected retrieve call. -/
inductive PyExc
  | valueError
  | nccError
deriving DecidableEq

/-- The four database models status writes and deletions are keyed against
(`loadbalancer_db.Vip/Pool/Member` and the pool health monitor table). -/
inductive DbKind
  | vip
  | pool
  | member
  | monitor
deriving DecidableEq

/-- One call issued to the NCC client, with the tenant, the resource path
string built by the driver, and (for create/update) the object name. -/
inductive RemoteCall
  | createRes (tenant path object_name : String)
  | updateRes (tenant path object_name : String)
  | removeRes (tenant path : String)
  | retrieveRes (tenant path : String)
deriving DecidableEq

/-- One status write against the local store: `plugin.update_status` (with
`desc = none`), the member-sweep `update_status` carrying a
`status_description` (`desc = some d`), or
`plugin.update_pool_health_monitor` (which also carries the pool id). -/
structure StatusWrite where
  kind : DbKind
  key : String
  status : String
  desc : Option String
  pool : Option String
deriving DecidableEq

/-- The visible effects of one lifecycle-driver operation: remote calls
issued, local status writes, local record deletions, and ids appended to
`VIP_IN_PENDING_CREATE`. -/
structure Effects where
  calls : List RemoteCall
  writes : List StatusWrite
  deletes : List (DbKind × String)
  pendingAdds : List String
deriving DecidableEq

/-- A VIP; only the identifier is inspected by the verified properties
(the remaining fields only feed the remote payload). -/
structure Vip where
  id : String
deriving DecidableEq

/-- A pool; only the identifier is inspected (note
`_prepare_pool_for_creation` copies `pool['id']` into `ncc_pool['id']`, so
the create-time status write key equals the pool id). -/
structure Pool where
  id : String
deriving DecidableEq

/-- A pool member; only the identifier is inspected. -/
structure Member where
  id : String
deriving DecidableEq

/-- A health monitor; only the identifier is inspected. -/
structure HealthMonitor where
  id : String
deriving DecidableEq

/-- The local state: per-kind stores of `id`-keyed statuses (members also
keep the `status_description` last written for them) plus the process-wide
`VIP_IN_PENDING_CREATE` list. -/
structure LBState where
  vips : List (String × String)
  pools : List (String × String)
  members : List (String × (String × Option String))
  monitors : List (String × String)
  pending : List String
deriving DecidableEq

/-- Store a value under a key in an association list: replace the first
binding of the key, or append a fresh binding (the store collaborator's
atomic status-update operation). -/
def assocUpdate {β : Type} : List (String × β) → String → β → List (String × β)
  | [], k, v => [(k, v)]
  | (k2, v2) :: rest, k, v =>
    if k2 == k then (k, v) :: rest else (k2, v2) :: assocUpdate rest k v

/-- Remove every binding of a key from an association list (the store
collaborator's delete-by-id operation). -/
def assocDelete {β : Type} : List (String × β) → String → List (String × β)
  | [], _ => []
  | (k2, v2) :: rest, k =>
    if k2 == k then assocDelete rest k else (k2, v2) :: assocDelete rest k

/-- Python `list.remove`: delete the first occurrence of `x`, or signal
`ValueError` (`none`) when `x` is absent. -/
def list_remove (l : List String) (x : String) : Option (List String) :=
  if x ∈ l then some (l.erase x) else none

/-- `NSClient.create_resource`: succeeds or raises `NCCException`. -/
def create_resource (remote_ok : Bool) : Except NCCException Unit :=
  if remote_ok then .ok () else .error .mk

/-- `NSClient.update_resource`: succeeds or raises `NCCException`. -/
def update_resource (remote_ok : Bool) : Except NCCException Unit :=
  if remote_ok then .ok () else .error .mk

/-- `NSClient.remove_resource`: succeeds or raises `NCCException`. -/
def remove_resource (remote_ok : Bool) : Except NCCException Unit :=
  if remote_ok then .ok () else .error .mk

/-- `NetScalerPluginDriver.create_vip`: posts to `v2.0/lb/vips`; on success
the status written is `PENDING_CREATE` and the vip id is appended to
`VIP_IN_PENDING_CREATE`, on `NCCException` the status written is `ERROR`
and the pending list is untouched; exactly one status write either way. -/
def create_vip (tenant_id : String) (vip : Vip) (remote_ok : Bool) :
    Except NCCException Effects :=
  let resource_path := RESOURCE_ROOT ++ "/" ++ VIPS_RESOURCE
  let call := RemoteCall.createRes tenant_id resource_path VIP_RESOURCE
  match create_resource remote_ok with
  | .error _ =>
    .ok ⟨[call], [⟨DbKind.vip, vip.id, ERROR, none, none⟩], [], []⟩
  | .ok _ =>
    .ok ⟨[call], [⟨DbKind.vip, vip.id, PENDING_CREATE, none, none⟩], [], [vip.id]⟩

/-- `NetScalerPluginDriver.update_vip`: the remote path is built from
`vip["id"]` (the new entity) while the status write is keyed by
`old_vip["id"]`; success writes `ACTIVE`, `NCCException` writes `ERROR`. -/
def update_vip (tenant_id : String) (old_vip vip : Vip) (remote_ok : Bool) :
    Except NCCException Effects :=
  let resource_path := RESOURCE_ROOT ++ "/" ++ VIPS_RESOURCE ++ "/" ++ vip.id
  let call := RemoteCall.updateRes tenant_id resource_path VIP_RESOURCE
  match update_resource remote_ok with
  | .error _ => .ok ⟨[call], [⟨DbKind.vip, old_vip.id, ERROR, none, none⟩], [], []⟩
  | .ok _ => .ok ⟨[call], [⟨DbKind.vip, old_vip.id, ACTIVE, none, none⟩], [], []⟩

/-- `NetScalerPluginDriver.delete_vip`: success deletes the local record
(`plugin._delete_db_vip`), `NCCException` writes `ERROR` and keeps it. -/
def delete_vip (tenant_id : String) (vip : Vip) (remote_ok : Bool) :
    Except NCCException Effects :=
  let resource_path := RESOURCE_ROOT ++ "/" ++ VIPS_RESOURCE ++ "/" ++ vip.id
  let call := RemoteCall.removeRes tenant_id resource_path
  match remove_resource remote_ok with
  | .error _ => .ok ⟨[call], [⟨DbKind.vip, vip.id, ERROR, none, none⟩], [], []⟩
  | .ok _ => .ok ⟨[call], [], [(DbKind.vip, vip.id)], []⟩

/-- `NetScalerPluginDriver.create_pool`: posts to `v2.0/lb/pools`; success
writes `ACTIVE`, `NCCException` writes `ERROR`, keyed by `ncc_pool["id"]`
which equals the pool id. -/
def create_pool (tenant_id : String) (pool : Pool) (remote_ok : Bool) :
    Except NCCException Effects :=
  let resource_path := RESOURCE_ROOT ++ "/" ++ POOLS_RESOURCE
  let call := RemoteCall.createRes tenant_id resource_path POOL_RESOURCE
  match create_resource remote_ok with
  | .error _ => .ok ⟨[call], [⟨DbKind.pool, pool.id, ERROR, none, none⟩], [], []⟩
  | .ok _ => .ok ⟨[call], [⟨DbKind.pool, pool.id, ACTIVE, none, none⟩], [], []⟩

/-- `NetScalerPluginDriver.update_pool`: the remote path and the status
write are both keyed by `old_pool["id"]`. -/
def update_pool (tenant_id : String) (old_pool _pool : Pool) (remote_ok : Bool) :
    Except NCCException Effects :=
  let resource_path := RESOURCE_ROOT ++ "/" ++ POOLS_RESOURCE ++ "/" ++ old_pool.id
  let call := RemoteCall.updateRes tenant_id resource_path POOL_RESOURCE
  match update_resource remote_ok with
  | .error _ => .ok ⟨[call], [⟨DbKind.pool, old_pool.id, ERROR, none, none⟩], [], []⟩
  | .ok _ => .ok ⟨[call], [⟨DbKind.pool, old_pool.id, ACTIVE, none, none⟩], [], []⟩

/-- `NetScalerPluginDriver.delete_pool`: success deletes the local record,
`NCCException` writes `ERROR` and keeps it. -/
def delete_pool (tenant_id : String) (pool : Pool) (remote_ok : Bool) :
    Except NCCException Effects :=
  let resource_path := RESOURCE_ROOT ++ "/" ++ POOLS_RESOURCE ++ "/" ++ pool.id
  let call := RemoteCall.removeRes tenant_id resource_path
  match remove_resource remote_ok with
  | .error _ => .ok ⟨[call], [⟨DbKind.pool, pool.id, ERROR, none, none⟩], [], []⟩
  | .ok _ => .ok ⟨[call], [], [(DbKind.pool, pool.id)], []⟩

/-- `NetScalerPluginDriver.create_member`: posts to `v2.0/lb/members`;
success writes `ACTIVE`, `NCCException` writes `ERROR`. -/
def create_member (tenant_id : String) (member : Member) (remote_ok : Bool) :
    Except NCCException Effects :=
  let resource_path := RESOURCE_ROOT ++ "/" ++ POOLMEMBERS_RESOURCE
  let call := RemoteCall.createRes tenant_id resource_path POOLMEMBER_RESOURCE
  match create_resource remote_ok with
  | .error _ => .ok ⟨[call], [⟨DbKind.member, member.id, ERROR, none, none⟩], [], []⟩
  | .ok _ => .ok ⟨[call], [⟨DbKind.member, member.id, ACTIVE, none, none⟩], [], []⟩

/-- `NetScalerPluginDriver.update_member`: the remote path and the status
write are both keyed by `old_member["id"]`. -/
def update_member (tenant_id : String) (old_member _member : Member) (remote_ok : Bool) :
    Except NCCException Effects :=
  let resource_path := RESOURCE_ROOT ++ "/" ++ POOLMEMBERS_RESOURCE ++ "/" ++ old_member.id
  let call := RemoteCall.updateRes tenant_id resource_path POOLMEMBER_RESOURCE
  match update_resource remote_ok with
  | .error _ => .ok ⟨[call], [⟨DbKind.member, old_member.id, ERROR, none, none⟩], [], []⟩
  | .ok _ => .ok ⟨[call], [⟨DbKind.member, old_member.id, ACTIVE, none, none⟩], [], []⟩

/-- `NetScalerPluginDriver.delete_member`: success deletes the local
record, `NCCException` writes `ERROR` and keeps it. -/
def delete_member (tenant_id : String) (member : Member) (remote_ok : Bool) :
    Except NCCException Effects :=
  let resource_path := RESOURCE_ROOT ++ "/" ++ POOLMEMBERS_RESOURCE ++ "/" ++ member.id
  let call := RemoteCall.removeRes tenant_id resource_path
  match remove_resource remote_ok with
  | .error _ => .ok ⟨[call], [⟨DbKind.member, member.id, ERROR, none, none⟩], [], []⟩
  | .ok _ => .ok ⟨[call], [], [(DbKind.member, member.id)], []⟩

/-- `NetScalerPluginDriver.create_pool_health_monitor`: posts to the nested
collection `v2.0/lb/pools/{pool_id}/healthmonitors`; the status write goes
through `plugin.update_pool_health_monitor(.., monitor id, pool_id, status, "")`. -/
def create_pool_health_monitor (tenant_id : String) (health_monitor : HealthMonitor)
    (pool_id : String) (remote_ok : Bool) : Except NCCException Effects :=
  let resource_path := RESOURCE_ROOT ++ "/" ++ POOLS_RESOURCE ++ "/" ++ pool_id
    ++ "/" ++ MONITORS_RESOURCE
  let call := RemoteCall.createRes tenant_id resource_path MONITOR_RESOURCE
  match create_resource remote_ok with
  | .error _ =>
    .ok ⟨[call], [⟨DbKind.monitor, health_monitor.id, ERROR, some "", some pool_id⟩], [], []⟩
  | .ok _ =>
    .ok ⟨[call], [⟨DbKind.monitor, health_monitor.id, ACTIVE, some "", some pool_id⟩], [], []⟩

/-- `NetScalerPluginDriver.update_pool_health_monitor`: the remote path is
the direct monitor path `v2.0/lb/healthmonitors/{old id}` and the status
write is keyed by the old monitor id. -/
def update_pool_health_monitor (tenant_id : String)
    (old_health_monitor _health_monitor : HealthMonitor) (pool_id : String)
    (remote_ok : Bool) : Except NCCException Effects :=
  let resource_path := RESOURCE_ROOT ++ "/" ++ MONITORS_RESOURCE ++ "/"
    ++ old_health_monitor.id
  let call := RemoteCall.updateRes tenant_id resource_path MONITOR_RESOURCE
  match update_resource remote_ok with
  | .error _ =>
    .ok ⟨[call],
      [⟨DbKind.monitor, old_health_monitor.id, ERROR, some "", some pool_id⟩], [], []⟩
  | .ok _ =>
    .ok ⟨[call],
      [⟨DbKind.monitor, old_health_monitor.id, ACTIVE, some "", some pool_id⟩], [], []⟩

/-- `NetScalerPluginDriver.delete_pool_health_monitor`: the remote path is
the fully nested `v2.0/lb/pools/{pool_id}/healthmonitors/{id}`; success
deletes the local record, `NCCException` writes `ERROR` and keeps it. -/
def delete_pool_health_monitor (tenant_id : String) (health_monitor : HealthMonitor)
    (pool_id : String) (remote_ok : Bool) : Except NCCException Effects :=
  let resource_path := RESOURCE_ROOT ++ "/" ++ POOLS_RESOURCE ++ "/" ++ pool_id
    ++ "/" ++ MONITORS_RESOURCE ++ "/" ++ health_monitor.id
  let call := RemoteCall.removeRes tenant_id resource_path
  match remove_resource remote_ok with
  | .error _ =>
    .ok ⟨[call], [⟨DbKind.monitor, health_monitor.id, ERROR, some "", some pool_id⟩], [], []⟩
  | .ok _ => .ok ⟨[call], [], [(DbKind.monitor, health_monitor.id)], []⟩

/-- `NetScalerPluginDriver.stats`: retrieves
`v2.0/lb/pools/{pool_id}/stats`; on success returns the parsed stats, on
`NCCException` logs and falls through, returning no result (`none`) rather
than raising.  `remote` is the retrieve outcome (`none` = the call raised). -/
def stats (tenant_id pool_id : String) (remote : Option String) :
    RemoteCall × Except NCCException (Option String) :=
  let resource_path := RESOURCE_ROOT ++ "/" ++ POOLS_RESOURCE ++ "/" ++ pool_id
    ++ "/" ++ STATS_RESOURCE
  (RemoteCall.retrieveRes tenant_id resource_path,
    match remote with
    | none => .ok none
    | some s => .ok (some s))

/-- Project the effects out of a lifecycle operation (every operation
returns normally, so the error branch is never taken). -/
def runEx (x : Except NCCException Effects) : Effects :=
  match x with
  | .ok e => e
  | .error _ => ⟨[], [], [], []⟩

/-- Whether an operation completed without propagating an error. -/
def returns_normally (x : Except NCCException Effects) : Bool :=
  match x with
  | .ok _ => true
  | .error _ => false

/-- Replay one status write on the local state. -/
def applyWrite (st : LBState) (w : StatusWrite) : LBState :=
  match w.kind with
  | .vip => { st with vips := assocUpdate st.vips w.key w.status }
  | .pool => { st with pools := assocUpdate st.pools w.key w.status }
  | .member => { st with members := assocUpdate st.members w.key (w.status, w.desc) }
  | .monitor => { st with monitors := assocUpdate st.monitors w.key w.status }

/-- Replay one record deletion (`plugin._delete_db_*`) on the local state. -/
def applyDelete (st : LBState) (d : DbKind × String) : LBState :=
  match d.1 with
  | .vip => { st with vips := assocDelete st.vips d.2 }
  | .pool => { st with pools := assocDelete st.pools d.2 }
  | .member => { st with members := assocDelete st.members d.2 }
  | .monitor => { st with monitors := assocDelete st.monitors d.2 }

/-- Replay an operation's effect trace on the local state: the status
writes, then the record deletions, then the `VIP_IN_PENDING_CREATE`
appends. -/
def applyEffects (st : LBState) (e : Effects) : LBState :=
  let st1 := e.writes.foldl applyWrite st
  let st2 := e.deletes.foldl applyDelete st1
  { st2 with pending := st2.pending ++ e.pendingAdds }

/-- One lifecycle-driver invocation (with the remote outcome it met), or
one run of the VIP convergence pass with a given remote-status oracle. -/
inductive LBOp
  | opCreateVip (tenant : String) (v : Vip) (ok : Bool)
  | opUpdateVip (tenant : String) (ov v : Vip) (ok : Bool)
  | opDeleteVip (tenant : String) (v : Vip) (ok : Bool)
  | opCreatePool (tenant : String) (p : Pool) (ok : Bool)
  | opUpdatePool (tenant : String) (op2 p : Pool) (ok : Bool)
  | opDeletePool (tenant : String) (p : Pool) (ok : Bool)
  | opCreateMember (tenant : String) (m : Member) (ok : Bool)
  | opUpdateMember (tenant : String) (om m : Member) (ok : Bool)
  | opDeleteMember (tenant : String) (m : Member) (ok : Bool)
  | opCreateMonitor (tenant : String) (h : HealthMonitor) (pool_id : String) (ok : Bool)
  | opUpdateMonitor (tenant : String) (oh h : HealthMonitor) (pool_id : String) (ok : Bool)
  | opDeleteMonitor (tenant : String) (h : HealthMonitor) (pool_id : String) (ok : Bool)
  | opConvergence (remote : String → Option String)

/-- The per-VIP body of `Collectors._refresh_vip_status`: retrieve the vip
from the NCC (`remote vip_id`; `none` = the call raised and the `except`
clause skips this vip).  When the retrieved status differs from
`PENDING_CREATE` the status is written verbatim to the store and then
`VIP_IN_PENDING_CREATE.remove(vip_id)` runs, raising `ValueError` when the
id is absent from the list. -/
def refresh_vip_step (remote : String → Option String) (st : LBState) (vip_id : String) :
    LBState × Option PyExc :=
  match remote vip_id with
  | none => (st, none)
  | some vip_status =>
    if vip_status ≠ PENDING_CREATE then
      let st2 := { st with vips := assocUpdate st.vips vip_id vip_status }
      match list_remove st2.pending vip_id with
      | some new_pending => ({ st2 with pending := new_pending }, none)
      | none => (st2, some PyExc.valueError)
    else
      (st, none)

/-- The `for vip_id in pending_vips` loop of
`Collectors._refresh_vip_status`; an exception raised by a step propagates
and aborts the remaining iterations. -/
def refresh_vip_loop (remote : String → Option String) :
    List String → LBState → LBState × Option PyExc
  | [], st => (st, none)
  | v :: rest, st =>
    match refresh_vip_step remote st v with
    | (st2, none) => refresh_vip_loop remote rest st2
    | (st2, some e) => (st2, some e)

/-- `Collectors._refresh_vip_status`: the candidate list is the store query
`plugin.get_vips(filters = (status = PENDING_CREATE))` (a collaborator,
modelled from the spec as yielding the identifiers of the matching vips),
then the per-vip loop runs over it. -/
def refresh_vip_status (remote : String → Option String) (st : LBState) :
    LBState × Option PyExc :=
  refresh_vip_loop remote
    ((st.vips.filter (fun pr => pr.2 == PENDING_CREATE)).map Prod.fst) st

/-- One `{id, status, status_description}` entry of the paginated member
status feed. -/
structure MemberEntry where
  id : String
  status : String
  status_description : String
deriving DecidableEq

/-- One status group of a feed page; its `memberstatus` field lists the
member entries. -/
structure StatusGroup where
  memberstatus : List MemberEntry
deriving DecidableEq

/-- The member-sweep body of `plugin.update_status(.., Member, member_id,
member_status, member_status_desc)`: written unconditionally, keyed by the
member id. -/
def applyMember (st : LBState) (m : MemberEntry) : LBState :=
  { st with members := assocUpdate st.members m.id (m.status, some m.status_description) }

/-- Apply every member entry of every status group of one feed page. -/
def applyGroups (st : LBState) (gs : List StatusGroup) : LBState :=
  gs.foldl (fun s g => g.memberstatus.foldl applyMember s) st

/-- Outcome of the member status sweep: normal return, an uncaught
exception (with the pages retrieved so far), or fuel exhaustion (an
artifact of embedding the unbounded `while True`). -/
inductive SweepResult
  | done (st : LBState) (pages : List Nat)
  | failed (st : LBState) (pages : List Nat) (e : PyExc)
  | fuelOut (st : LBState) (pages : List Nat)
deriving DecidableEq

/-- Final state of a sweep outcome. -/
def SweepResult.stOf : SweepResult → LBState
  | .done st _ => st
  | .failed st _ _ => st
  | .fuelOut st _ => st

/-- Exception of a sweep outcome, if any. -/
def SweepResult.excOf : SweepResult → Option PyExc
  | .done _ _ => none
  | .failed _ _ e => some e
  | .fuelOut _ _ => none

/-- Pages retrieved by a sweep outcome, in order. -/
def SweepResult.pagesOf : SweepResult → List Nat
  | .done _ ps => ps
  | .failed _ ps _ => ps
  | .fuelOut _ ps => ps

/-- The `while True` loop of `Collectors._refresh_all_members_status`:
retrieve `oca/v1/memberstatus?page={page_no}&size={pagesize}` (`feed
page_no`; `none` = the retrieve raised, and there is no `try` around it, so
the exception propagates), write every member entry of every group of the
page, stop when the page holds fewer than `pagesize` groups, else continue
with `page_no + 1`. -/
def refresh_members_loop (feed : Nat → Option (List StatusGroup)) (pagesize : Nat) :
    Nat → Nat → LBState → SweepResult
  | 0, _, st => .fuelOut st []
  | fuel + 1, page_no, st =>
    match feed page_no with
    | none => .failed st [page_no] PyExc.nccError
    | some statuses =>
      let st2 := applyGroups st statuses
      if statuses.length < pagesize then
        .done st2 [page_no]
      else
        match refresh_members_loop feed pagesize fuel (page_no + 1) st2 with
        | .done st3 ps => .done st3 (page_no :: ps)
        | .failed st3 ps e => .failed st3 (page_no :: ps) e
        | .fuelOut st3 ps => .fuelOut st3 (page_no :: ps)

/-- `Collectors._refresh_all_members_status` starts at page 1. -/
def refresh_all_members_status (feed : Nat → Option (List StatusGroup))
    (pagesize fuel : Nat) (st : LBState) : SweepResult :=
  refresh_members_loop feed pagesize fuel 1 st

/-- Run one lifecycle operation or one convergence pass on the state. -/
def runOp (st : LBState) (o : LBOp) : LBState :=
  match o with
  | .opCreateVip t v ok => applyEffects st (runEx (create_vip t v ok))
  | .opUpdateVip t ov v ok => applyEffects st (runEx (update_vip t ov v ok))
  | .opDeleteVip t v ok => applyEffects st (runEx (delete_vip t v ok))
  | .opCreatePool t p ok => applyEffects st (runEx (create_pool t p ok))
  | .opUpdatePool t op2 p ok => applyEffects st (runEx (update_pool t op2 p ok))
  | .opDeletePool t p ok => applyEffects st (runEx (delete_pool t p ok))
  | .opCreateMember t m ok => applyEffects st (runEx (create_member t m ok))
  | .opUpdateMember t om m ok => applyEffects st (runEx (update_member t om m ok))
  | .opDeleteMember t m ok => applyEffects st (runEx (delete_member t m ok))
  | .opCreateMonitor t h pid ok => applyEffects st (runEx (create_pool_health_monitor t h pid ok))
  | .opUpdateMonitor t oh h pid ok =>
    applyEffects st (runEx (update_pool_health_monitor t oh h pid ok))
  | .opDeleteMonitor t h pid ok => applyEffects st (runEx (delete_pool_health_monitor t h pid ok))
  | .opConvergence remote => (refresh_vip_status remote st).1

/-- Run a sequence of operations. -/
def runOps (st : LBState) (ops : List LBOp) : LBState :=
  ops.foldl runOp st

/-- Result of one firing of `Collectors.execute_periodic_tasks`. -/
structure PeriodicOutcome where
  vipPassRan : Bool
  sweepRan : Bool
  state : LBState
  exc : Option PyExc
  pages : List Nat
deriving DecidableEq

/-- `Collectors.execute_periodic_tasks`: run `_refresh_vip_status`, then
`_refresh_all_members_status` but only when `enable_status_collection` is
set; an exception from the vip pass propagates, so the sweep then does not
run. -/
def execute_periodic_tasks (enable_status_collection : Bool) (pagesize : Nat)
    (remote : String → Option String) (feed : Nat → Option (List StatusGroup))
    (fuel : Nat) (st : LBState) : PeriodicOutcome :=
  match refresh_vip_status remote st with
  | (st1, some e) => ⟨true, false, st1, some e, []⟩
  | (st1, none) =>
    if enable_status_collection then
      let r2 := refresh_all_members_status feed pagesize fuel st1
      ⟨true, true, r2.stOf, r2.excOf, r2.pagesOf⟩
    else
      ⟨true, false, st1, none, []⟩

/-- The pages `[p, p+1, ..., p+c-1]` a sweep starting at `p` retrieves when
it sees `c` pages. -/
def pageRange (p : Nat) : Nat → List Nat
  | 0 => []
  | c + 1 => p :: pageRange (p + 1) c

/-- The groups the feed holds on one page (defaulting an absent page to no
groups; only used at pages the hypotheses make present). -/
def pageGroups (feed : Nat → Option (List StatusGroup)) (k : Nat) : List StatusGroup :=
  (feed k).getD []

/-- Apply the member entries of the given feed pages, in order. -/
def applyPages (feed : Nat → Option (List StatusGroup)) (st : LBState)
    (pages : List Nat) : LBState :=
  pages.foldl (fun s k => applyGroups s (pageGroups feed k)) st

/-- Looking a key up after storing it yields the stored value. -/
theorem lookup_assocUpdate {β : Type} (l : List (String × β)) (k : String) (v : β) :
    List.lookup k (assocUpdate l k v) = some v := by
  induction l with
  | nil => simp [assocUpdate, List.lookup]
  | cons a rest ih =>
    rcases a with ⟨k2, v2⟩
    by_cases h : k2 = k
    · simp [assocUpdate, h, List.lookup]
    · have hb : (k == k2) = false := beq_eq_false_iff_ne.mpr (fun he => h he.symm)
      have hb2 : (k2 == k) = false := beq_eq_false_iff_ne.mpr h
      simp [assocUpdate, hb2, List.lookup, hb, ih]

/-- Looking a key up after deleting it yields nothing. -/
theorem lookup_assocDelete {β : Type} (l : List (String × β)) (k : String) :
    List.lookup k (assocDelete l k) = none := by
  induction l with
  | nil => rfl
  | cons a rest ih =>
    rcases a with ⟨k2, v2⟩
    by_cases h : k2 = k
    · have hb2 : (k2 == k) = true := beq_iff_eq.mpr h
      simp [assocDelete, hb2, ih]
    · have hb : (k == k2) = false := beq_eq_false_iff_ne.mpr (fun he => h he.symm)
      have hb2 : (k2 == k) = false := beq_eq_false_iff_ne.mpr h
      simp [assocDelete, hb2, List.lookup, hb, ih]

/-- A sweep starting at `p` that sees `c` pages retrieves `c` page numbers. -/
theorem pageRange_length (p c : Nat) : (pageRange p c).length = c := by
  induction c generalizing p with
  | zero => rfl
  | succ c ih => simp [pageRange, ih]

/-- A failed retrieve makes the per-VIP step a no-op (the `except` clause
runs `continue`). -/
theorem step_skip (remote : String → Option String) (st : LBState) (v : String)
    (hr : remote v = none) : refresh_vip_step remote st v = (st, none) := by
  simp [refresh_vip_step, hr]

/-- A remote status still equal to `PENDING_CREATE` makes the per-VIP step
a no-op. -/
theorem step_pending (remote : String → Option String) (st : LBState) (v : String)
    (hr : remote v = some PENDING_CREATE) : refresh_vip_step remote st v = (st, none) := by
  simp [refresh_vip_step, hr]

/-- A remote status other than `PENDING_CREATE`, with the id present in the
pending list, writes the status verbatim and erases the id's first
occurrence. -/
theorem step_converge (remote : String → Option String) (st : LBState) (v s : String)
    (hr : remote v = some s) (hs : s ≠ PENDING_CREATE) (hm : v ∈ st.pending) :
    refresh_vip_step remote st v =
      ({ st with vips := assocUpdate st.vips v s, pending := st.pending.erase v }, none) := by
  simp [refresh_vip_step, hr, hs, list_remove, hm]

/-- A remote status other than `PENDING_CREATE`, with the id absent from
the pending list, writes the status verbatim and then raises `ValueError`
from `list.remove`. -/
theorem step_missing (remote : String → Option String) (st : LBState) (v s : String)
    (hr : remote v = some s) (hs : s ≠ PENDING_CREATE) (hm : v ∉ st.pending) :
    refresh_vip_step remote st v =
      ({ st with vips := assocUpdate st.vips v s }, some PyExc.valueError) := by
  simp [refresh_vip_step, hr, hs, list_remove, hm]

/-- Shape of a successful sweep: starting at page `p` with `c` full pages
followed by one short page, the loop retrieves exactly the pages
`p, ..., p + c` and applies every page's member entries. -/
theorem sweep_loop_spec (feed : Nat → Option (List StatusGroup)) (pagesize : Nat)
    (c : Nat) :
    ∀ (fuel p : Nat) (st : LBState), c < fuel →
      (∀ k, p ≤ k → k < p + c → ∃ gs, feed k = some gs ∧ gs.length = pagesize) →
      (∃ gs, feed (p + c) = some gs ∧ gs.length < pagesize) →
      refresh_members_loop feed pagesize fuel p st =
        SweepResult.done (applyPages feed st (pageRange p (c + 1)))
          (pageRange p (c + 1)) := by
  induction c with
  | zero =>
    intro fuel p st hf _hfull hlast
    obtain ⟨gs, hg, hlen⟩ := hlast
    match fuel, hf with
    | fuel + 1, _ =>
      rw [Nat.add_zero] at hg
      simp [refresh_members_loop, hg, hlen, pageRange, applyPages, pageGroups]
  | succ c ih =>
    intro fuel p st hf hfull hlast
    obtain ⟨gs0, hg0, hlen0⟩ := hfull p (Nat.le_refl p) (by omega)
    match fuel, hf with
    | fuel + 1, hf =>
      have hrec := ih fuel (p + 1) (applyGroups st gs0) (by omega)
        (fun k hk1 hk2 => hfull k (by omega) (by omega))
        (by
          have he : p + 1 + c = p + (c + 1) := by omega
          rw [he]
          exact hlast)
      simp only [refresh_members_loop, hg0, hlen0, Nat.lt_irrefl, if_false, hrec]
      have hpg : pageGroups feed p = gs0 := by simp [pageGroups, hg0]
      simp [pageRange, applyPages, hpg]

/-- An old VIP whose update is submitted with a new entity carrying a
different identifier. -/
def oldVip : Vip := ⟨"old1"⟩

/-- The new VIP entity of the update. -/
def newVip : Vip := ⟨"new2"⟩

/-- C1 (counterexample): the claim says every update builds the remote
resource path from the old entity's identifier, but `update_vip` builds it
from `vip["id"]` — the new entity — so with old id `old1` and new id
`new2` the remote path is `v2.0/lb/vips/new2`, not `v2.0/lb/vips/old1`,
even though the status write is keyed by the old id. -/
theorem C1_counterexample :
    (runEx (update_vip "t" oldVip newVip true)).calls =
      [RemoteCall.updateRes "t" "v2.0/lb/vips/new2" "vip"] ∧
    "v2.0/lb/vips/new2" ≠ "v2.0/lb/vips/old1" ∧
    (runEx (update_vip "t" oldVip newVip true)).writes =
      [⟨DbKind.vip, "old1", "ACTIVE", none, none⟩] :=
  ⟨rfl, by decide, rfl⟩

/-- C1 (amended): for pool, member and health-monitor updates the old
identifier is used both for the remote resource path and as the key of the
single status write; for VIP updates the status write is keyed by the old
identifier but the remote path is built from the new entity's identifier
(the two coincide in practice because identifiers are immutable). -/
theorem C1_update_uses_old_id (t : String) (ov v : Vip) (op2 p : Pool) (om m : Member)
    (oh h : HealthMonitor) (pid : String) (ok : Bool) :
    (runEx (update_vip t ov v ok)).calls =
      [RemoteCall.updateRes t (RESOURCE_ROOT ++ "/" ++ VIPS_RESOURCE ++ "/" ++ v.id)
        VIP_RESOURCE] ∧
    (runEx (update_vip t ov v ok)).writes =
      [⟨DbKind.vip, ov.id, if ok then ACTIVE else ERROR, none, none⟩] ∧
    (runEx (update_pool t op2 p ok)).calls =
      [RemoteCall.updateRes t (RESOURCE_ROOT ++ "/" ++ POOLS_RESOURCE ++ "/" ++ op2.id)
        POOL_RESOURCE] ∧
    (runEx (update_pool t op2 p ok)).writes =
      [⟨DbKind.pool, op2.id, if ok then ACTIVE else ERROR, none, none⟩] ∧
    (runEx (update_member t om m ok)).calls =
      [RemoteCall.updateRes t (RESOURCE_ROOT ++ "/" ++ POOLMEMBERS_RESOURCE ++ "/" ++ om.id)
        POOLMEMBER_RESOURCE] ∧
    (runEx (update_member t om m ok)).writes =
      [⟨DbKind.member, om.id, if ok then ACTIVE else ERROR, none, none⟩] ∧
    (runEx (update_pool_health_monitor t oh h pid ok)).calls =
      [RemoteCall.updateRes t (RESOURCE_ROOT ++ "/" ++ MONITORS_RESOURCE ++ "/" ++ oh.id)
        MONITOR_RESOURCE] ∧
    (runEx (update_pool_health_monitor t oh h pid ok)).writes =
      [⟨DbKind.monitor, oh.id, if ok then ACTIVE else ERROR, some "", some pid⟩] := by
  cases ok <;>
    simp [update_vip, update_pool, update_member, update_pool_health_monitor,
      update_resource, runEx]

/-- C2: on a successful remote create the single status write is
`PENDING_CREATE` for a VIP (whose id is also appended to the pending list)
and `ACTIVE` for a pool, member or health monitor; on a failed remote
create the single status write is `ERROR` and, for a VIP, the pending list
is untouched. -/
theorem C2_create_status (t : String) (v : Vip) (p : Pool) (m : Member)
    (h : HealthMonitor) (pid : String) (ok : Bool) (st : LBState) :
    (runEx (create_vip t v true)).writes =
      [⟨DbKind.vip, v.id, PENDING_CREATE, none, none⟩] ∧
    (runEx (create_vip t v true)).pendingAdds = [v.id] ∧
    (runEx (create_vip t v false)).writes = [⟨DbKind.vip, v.id, ERROR, none, none⟩] ∧
    (runEx (create_vip t v false)).pendingAdds = [] ∧
    (runEx (create_pool t p true)).writes = [⟨DbKind.pool, p.id, ACTIVE, none, none⟩] ∧
    (runEx (create_pool t p false)).writes = [⟨DbKind.pool, p.id, ERROR, none, none⟩] ∧
    (runEx (create_member t m true)).writes =
      [⟨DbKind.member, m.id, ACTIVE, none, none⟩] ∧
    (runEx (create_member t m false)).writes =
      [⟨DbKind.member, m.id, ERROR, none, none⟩] ∧
    (runEx (create_pool_health_monitor t h pid true)).writes =
      [⟨DbKind.monitor, h.id, ACTIVE, some "", some pid⟩] ∧
    (runEx (create_pool_health_monitor t h pid false)).writes =
      [⟨DbKind.monitor, h.id, ERROR, some "", some pid⟩] ∧
    (runEx (create_vip t v ok)).writes.length = 1 ∧
    (runEx (create_pool t p ok)).writes.length = 1 ∧
    (runEx (create_member t m ok)).writes.length = 1 ∧
    (runEx (create_pool_health_monitor t h pid ok)).writes.length = 1 ∧
    (runOp st (LBOp.opCreateVip t v true)).pending = st.pending ++ [v.id] ∧
    (runOp st (LBOp.opCreateVip t v false)).pending = st.pending := by
  cases ok <;>
    simp [create_vip, create_pool, create_member, create_pool_health_monitor,
      create_resource, runEx, runOp, applyEffects, applyWrite]

/-- C5: a successful remote delete removes the local record from the store
and performs no status write; a failed remote delete keeps the local
record and sets its status to `ERROR`. -/
theorem C5_delete_semantics (t : String) (v : Vip) (p : Pool) (m : Member)
    (h : HealthMonitor) (pid : String) (st : LBState) :
    (runEx (delete_vip t v true)).writes = [] ∧
    (runEx (delete_vip t v true)).deletes = [(DbKind.vip, v.id)] ∧
    List.lookup v.id (runOp st (LBOp.opDeleteVip t v true)).vips = none ∧
    (runEx (delete_vip t v false)).deletes = [] ∧
    (runEx (delete_vip t v false)).writes = [⟨DbKind.vip, v.id, ERROR, none, none⟩] ∧
    List.lookup v.id (runOp st (LBOp.opDeleteVip t v false)).vips = some ERROR ∧
    (runEx (delete_pool t p true)).writes = [] ∧
    (runEx (delete_pool t p true)).deletes = [(DbKind.pool, p.id)] ∧
    List.lookup p.id (runOp st (LBOp.opDeletePool t p true)).pools = none ∧
    (runEx (delete_pool t p false)).deletes = [] ∧
    (runEx (delete_pool t p false)).writes = [⟨DbKind.pool, p.id, ERROR, none, none⟩] ∧
    List.lookup p.id (runOp st (LBOp.opDeletePool t p false)).pools = some ERROR ∧
    (runEx (delete_member t m true)).writes = [] ∧
    (runEx (delete_member t m true)).deletes = [(DbKind.member, m.id)] ∧
    List.lookup m.id (runOp st (LBOp.opDeleteMember t m true)).members = none ∧
    (runEx (delete_member t m false)).deletes = [] ∧
    (runEx (delete_member t m false)).writes =
      [⟨DbKind.member, m.id, ERROR, none, none⟩] ∧
    List.lookup m.id (runOp st (LBOp.opDeleteMember t m false)).members =
      some (ERROR, none) ∧
    (runEx (delete_pool_health_monitor t h pid true)).writes = [] ∧
    (runEx (delete_pool_health_monitor t h pid true)).deletes =
      [(DbKind.monitor, h.id)] ∧
    List.lookup h.id (runOp st (LBOp.opDeleteMonitor t h pid true)).monitors = none ∧
    (runEx (delete_pool_health_monitor t h pid false)).deletes = [] ∧
    (runEx (delete_pool_health_monitor t h pid false)).writes =
      [⟨DbKind.monitor, h.id, ERROR, some "", some pid⟩] ∧
    List.lookup h.id (runOp st (LBOp.opDeleteMonitor t h pid false)).monitors =
      some ERROR := by
  simp [delete_vip, delete_pool, delete_member, delete_pool_health_monitor,
    remove_resource, runEx, runOp, applyEffects, applyWrite, applyDelete,
    lookup_assocUpdate, lookup_assocDelete]

/-- C6: every lifecycle create/update/delete operation returns normally to
its caller for both remote outcomes — a remote failure becomes a local
`ERROR` status write instead of propagating — and `stats` returns no result
(`none`) on remote failure rather than raising. -/
theorem C6_no_propagation (t : String) (ov v : Vip) (op2 p : Pool) (om m : Member)
    (oh h : HealthMonitor) (pid : String) (ok : Bool) (sv : String) :
    returns_normally (create_vip t v ok) = true ∧
    returns_normally (update_vip t ov v ok) = true ∧
    returns_normally (delete_vip t v ok) = true ∧
    returns_normally (create_pool t p ok) = true ∧
    returns_normally (update_pool t op2 p ok) = true ∧
    returns_normally (delete_pool t p ok) = true ∧
    returns_normally (create_member t m ok) = true ∧
    returns_normally (update_member t om m ok) = true ∧
    returns_normally (delete_member t m ok) = true ∧
    returns_normally (create_pool_health_monitor t h pid ok) = true ∧
    returns_normally (update_pool_health_monitor t oh h pid ok) = true ∧
    returns_normally (delete_pool_health_monitor t h pid ok) = true ∧
    (runEx (create_vip t v false)).writes = [⟨DbKind.vip, v.id, ERROR, none, none⟩] ∧
    (runEx (update_vip t ov v false)).writes =
      [⟨DbKind.vip, ov.id, ERROR, none, none⟩] ∧
    (runEx (delete_vip t v false)).writes = [⟨DbKind.vip, v.id, ERROR, none, none⟩] ∧
    (runEx (create_pool t p false)).writes = [⟨DbKind.pool, p.id, ERROR, none, none⟩] ∧
    (runEx (update_pool t op2 p false)).writes =
      [⟨DbKind.pool, op2.id, ERROR, none, none⟩] ∧
    (runEx (delete_pool t p false)).writes = [⟨DbKind.pool, p.id, ERROR, none, none⟩] ∧
    (runEx (create_member t m false)).writes =
      [⟨DbKind.member, m.id, ERROR, none, none⟩] ∧
    (runEx (update_member t om m false)).writes =
      [⟨DbKind.member, om.id, ERROR, none, none⟩] ∧
    (runEx (delete_member t m false)).writes =
      [⟨DbKind.member, m.id, ERROR, none, none⟩] ∧
    (runEx (create_pool_health_monitor t h pid false)).writes =
      [⟨DbKind.monitor, h.id, ERROR, some "", some pid⟩] ∧
    (runEx (update_pool_health_monitor t oh h pid false)).writes =
      [⟨DbKind.monitor, oh.id, ERROR, some "", some pid⟩] ∧
    (runEx (delete_pool_health_monitor t h pid false)).writes =
      [⟨DbKind.monitor, h.id, ERROR, some "", some pid⟩] ∧
    (stats t pid (some sv)).2 = Except.ok (some sv) ∧
    (stats t pid none).2 = Except.ok none := by
  cases ok <;>
    simp [create_vip, update_vip, delete_vip, create_pool, update_pool, delete_pool,
      create_member, update_member, delete_member, create_pool_health_monitor,
      update_pool_health_monitor, delete_pool_health_monitor, stats,
      create_resource, update_resource, remove_resource, returns_normally, runEx]

/-- C3: for a VIP processed by one convergence pass — a failed retrieve
skips the VIP (no status write, no pending-list mutation); a remote status
still `PENDING_CREATE` changes nothing; a remote status that differs (with
the id in the pending list) is written verbatim to the store and the id is
removed from the pending list, after which the pass continues with the
remaining VIPs. -/
theorem C3_convergence_cases (remote : String → Option String) (st : LBState)
    (v : String) (rest : List String) :
    (remote v = none →
      refresh_vip_loop remote (v :: rest) st = refresh_vip_loop remote rest st) ∧
    (remote v = some PENDING_CREATE →
      refresh_vip_loop remote (v :: rest) st = refresh_vip_loop remote rest st) ∧
    (∀ s, remote v = some s → s ≠ PENDING_CREATE → v ∈ st.pending →
      refresh_vip_loop remote (v :: rest) st =
        refresh_vip_loop remote rest
          { st with vips := assocUpdate st.vips v s, pending := st.pending.erase v }) := by
  refine ⟨fun hr => ?_, fun hr => ?_, fun s hr hs hm => ?_⟩
  · simp [refresh_vip_loop, step_skip remote st v hr]
  · simp [refresh_vip_loop, step_pending remote st v hr]
  · simp [refresh_vip_loop, step_converge remote st v s hr hs hm]

/-- A remote oracle that reports every VIP as `ACTIVE`. -/
def rrActive : String → Option String := fun _ => some "ACTIVE"

/-- A remote oracle whose every retrieve fails. -/
def rrFail : String → Option String := fun _ => none

/-- A state with one VIP `v1` in `PENDING_CREATE`, tracked in the pending
list. -/
def stW : LBState := ⟨[("v1", "PENDING_CREATE")], [], [], [], ["v1"]⟩

/-- C3 witness: with `v1` pending locally and `ACTIVE` remotely, the pass
writes `ACTIVE` for `v1` and erases it from the pending list. -/
theorem C3_witness :
    refresh_vip_loop rrActive ["v1"] stW =
      refresh_vip_loop rrActive []
        { stW with vips := assocUpdate stW.vips "v1" "ACTIVE",
                   pending := stW.pending.erase "v1" } :=
  (C3_convergence_cases rrActive stW "v1" []).2.2 "ACTIVE" rfl (by decide) (by decide)

/-- C4: over a feed whose pages `1..N-1` each hold exactly `pagesize`
status groups and whose page `N` holds fewer, the sweep retrieves exactly
the pages `1, 2, ..., N` in order, applies the status and
status-description of every member entry of every group of every page
(unconditionally, keyed by member id), and stops after page `N`. -/
theorem C4_sweep_pagination (feed : Nat → Option (List StatusGroup))
    (pagesize N fuel : Nat) (st : LBState) (hN : 1 ≤ N) (hfuel : N ≤ fuel)
    (hfull : ∀ k, 1 ≤ k → k < N → ∃ gs, feed k = some gs ∧ gs.length = pagesize)
    (hlast : ∃ gs, feed N = some gs ∧ gs.length < pagesize) :
    refresh_all_members_status feed pagesize fuel st =
      SweepResult.done (applyPages feed st (pageRange 1 N)) (pageRange 1 N) ∧
    (pageRange 1 N).length = N ∧
    (∀ s2 me, (applyMember s2 me).members =
      assocUpdate s2.members me.id (me.status, some me.status_description)) := by
  obtain ⟨c, rfl⟩ : ∃ c, N = c + 1 := ⟨N - 1, by omega⟩
  refine ⟨?_, pageRange_length 1 (c + 1), fun s2 me => rfl⟩
  have h := sweep_loop_spec feed pagesize c fuel 1 st (by omega)
    (fun k hk1 hk2 => hfull k hk1 (by omega))
    (by
      have he : 1 + c = c + 1 := by omega
      rw [he]
      exact hlast)
  exact h

/-- The empty initial state. -/
def st0 : LBState := ⟨[], [], [], [], []⟩

/-- Feed page group with one active member `mA`. -/
def gA : StatusGroup := ⟨[⟨"mA", "ACTIVE", "ok"⟩]⟩

/-- Feed page group with one down member `mB`. -/
def gB : StatusGroup := ⟨[⟨"mB", "DOWN", "down"⟩]⟩

/-- Feed page group with one active member `mC`. -/
def gC : StatusGroup := ⟨[⟨"mC", "ACTIVE", "ok"⟩]⟩

/-- A two-page feed: page 1 full at page size 2, page 2 short. -/
def wfeed : Nat → Option (List StatusGroup)
  | 1 => some [gA, gB]
  | 2 => some [gC]
  | _ => some []

/-- C4 witness: with page size 2 and pages `[gA, gB]`, `[gC]` the sweep
retrieves pages 1 and 2 and stops. -/
theorem C4_witness :
    refresh_all_members_status wfeed 2 5 st0 =
      SweepResult.done (applyPages wfeed st0 (pageRange 1 2)) (pageRange 1 2) :=
  (C4_sweep_pagination wfeed 2 2 5 st0 (by decide) (by decide)
    (fun k hk1 hk2 => by
      have hk : k = 1 := by omega
      subst hk
      exact ⟨[gA, gB], rfl, rfl⟩)
    ⟨[gC], rfl, by decide⟩).1

/-- A feed whose page 2 retrieve fails while page 3 still holds data. -/
def cexFeed : Nat → Option (List StatusGroup)
  | 1 => some [gA]
  | 2 => none
  | 3 => some [gC]
  | _ => some []

/-- C7 (counterexample): the claim says a failure on one page of the
member sweep leaves the remaining members processed, but the sweep has no
per-page protection: with page size 1, page 1 = `[gA]`, a failing page 2
and member `mC` waiting on page 3, the sweep aborts after pages `[1, 2]`
with the uncaught client error and `mC` is never written. -/
theorem C7_counterexample :
    refresh_members_loop cexFeed 1 5 1 st0 =
      SweepResult.failed ⟨[], [], [("mA", ("ACTIVE", some "ok"))], [], []⟩ [1, 2]
        PyExc.nccError ∧
    cexFeed 3 = some [gC] ∧
    List.lookup "mC"
      (SweepResult.stOf (refresh_members_loop cexFeed 1 5 1 st0)).members = none := by
  refine ⟨by decide, rfl, by decide⟩

/-- C7 (amended): the VIP convergence pass does isolate a retrieve failure
— the failed VIP is skipped and the remaining VIPs of the cycle are still
processed — but the member status sweep does not: a retrieve failure on
any page raises out of the loop, aborting the remainder of the sweep. -/
theorem C7_partial_isolation (remote : String → Option String) (v : String)
    (rest : List String) (st : LBState) (feed : Nat → Option (List StatusGroup))
    (pagesize fuel p : Nat) (st2 : LBState)
    (hv : remote v = none) (hp : feed p = none) :
    refresh_vip_loop remote (v :: rest) st = refresh_vip_loop remote rest st ∧
    refresh_members_loop feed pagesize (fuel + 1) p st2 =
      SweepResult.failed st2 [p] PyExc.nccError := by
  constructor
  · simp [refresh_vip_loop, step_skip remote st v hv]
  · simp [refresh_members_loop, hp]

/-- A feed whose every retrieve fails. -/
def failFeed : Nat → Option (List StatusGroup) := fun _ => none

/-- C7 witness: a failing VIP retrieve is skipped, and a failing first
page aborts the sweep. -/
theorem C7_witness :
    refresh_vip_loop rrFail ["x"] st0 = refresh_vip_loop rrFail [] st0 ∧
    refresh_members_loop failFeed 2 6 1 st0 =
      SweepResult.failed st0 [1] PyExc.nccError :=
  C7_partial_isolation rrFail "x" [] st0 failFeed 2 5 1 st0 rfl rfl

/-- The VIP convergence pass runs on every firing, whatever the
configuration. -/
theorem vip_pass_always_runs (enable : Bool) (pagesize fuel : Nat)
    (remote : String → Option String) (feed : Nat → Option (List StatusGroup))
    (st : LBState) :
    (execute_periodic_tasks enable pagesize remote feed fuel st).vipPassRan = true := by
  rcases h : refresh_vip_status remote st with ⟨st1, e1⟩
  cases e1 <;> cases enable <;> simp [execute_periodic_tasks, h]

/-- A feed whose every page is empty. -/
def feedEmpty : Nat → Option (List StatusGroup) := fun _ => some []

/-- C8 (counterexample): the claim says either pass may be skipped by
configuration, but no configuration (status collection enabled or not, any
page size) skips the VIP convergence pass — it runs on every firing. -/
theorem C8_counterexample :
    ¬ ∃ (enable : Bool) (pagesize fuel : Nat),
      (execute_periodic_tasks enable pagesize rrFail feedEmpty fuel st0).vipPassRan
        = false := by
  rintro ⟨enable, pagesize, fuel, h⟩
  rw [vip_pass_always_runs enable pagesize fuel rrFail feedEmpty st0] at h
  exact Bool.noConfusion h

/-- C8 (amended): every firing runs the VIP convergence pass first —
unconditionally, it cannot be skipped by configuration — and then, when the
pass raised no exception, the member status sweep runs exactly when status
collection is enabled; disabling status collection does not affect the VIP
pass, whose result is the firing's final state in that case. -/
theorem C8_pass_ordering (enable : Bool) (pagesize fuel : Nat)
    (remote : String → Option String) (feed : Nat → Option (List StatusGroup))
    (st : LBState) :
    (execute_periodic_tasks enable pagesize remote feed fuel st).vipPassRan = true ∧
    ((refresh_vip_status remote st).2 = none →
      (execute_periodic_tasks enable pagesize remote feed fuel st).sweepRan = enable) ∧
    ((refresh_vip_status remote st).2 = none →
      (execute_periodic_tasks false pagesize remote feed fuel st).state =
        (refresh_vip_status remote st).1) ∧
    ((refresh_vip_status remote st).2 = none →
      (execute_periodic_tasks true pagesize remote feed fuel st).state =
        (refresh_all_members_status feed pagesize fuel
          (refresh_vip_status remote st).1).stOf) := by
  rcases h : refresh_vip_status remote st with ⟨st1, e1⟩
  refine ⟨vip_pass_always_runs enable pagesize fuel remote feed st, ?_, ?_, ?_⟩ <;>
    intro hn
  all_goals cases e1 with
  | some e => simp at hn
  | none => cases enable <;> simp [execute_periodic_tasks, h]

/-- C8 witness: with status collection enabled and a clean VIP pass, the
sweep runs. -/
theorem C8_witness :
    (execute_periodic_tasks true 3 rrFail feedEmpty 5 st0).sweepRan = true :=
  (C8_pass_ordering true 3 5 rrFail feedEmpty st0).2.1 (by decide)

/-- The VIP used in the pending-list counterexample. -/
def vip1 : Vip := ⟨"v1"⟩

/-- C9 (counterexample): the claim says the pending structure never holds
duplicates and never keeps an id whose last transition was not a pending
create submission; but two successful create submissions of the same VIP
leave the id twice in the list, and a successful create followed by a
successful delete leaves the id in the list although the VIP's record is
gone from the store. -/
theorem C9_counterexample :
    (runOps st0 [LBOp.opCreateVip "t" vip1 true, LBOp.opCreateVip "t" vip1 true]).pending
      = ["v1", "v1"] ∧
    (runOps st0 [LBOp.opCreateVip "t" vip1 true, LBOp.opDeleteVip "t" vip1 true]).pending
      = ["v1"] ∧
    List.lookup "v1"
      (runOps st0 [LBOp.opCreateVip "t" vip1 true, LBOp.opDeleteVip "t" vip1 true]).vips
      = none :=
  ⟨rfl, rfl, rfl⟩

/-- C9 (amended): the pending structure is a list, not a duplicate-free
set: each successful VIP create submission appends the id once (a failed
one appends nothing), no other lifecycle operation — update or delete of
any kind — ever removes or adds an id, and only the convergence pass
removes (the first occurrence of) an id, when it observes a remote status
different from `PENDING_CREATE`; ids can therefore be duplicated and can
outlive the VIP's update, deletion, or convergence. -/
theorem C9_pending_transitions (t : String) (v ov : Vip) (p op2 : Pool) (m om : Member)
    (h oh : HealthMonitor) (pid : String) (ok : Bool) (st : LBState)
    (remote : String → Option String) (vid s : String) :
    (runOp st (LBOp.opCreateVip t v true)).pending = st.pending ++ [v.id] ∧
    (runOp st (LBOp.opCreateVip t v false)).pending = st.pending ∧
    (runOp st (LBOp.opUpdateVip t ov v ok)).pending = st.pending ∧
    (runOp st (LBOp.opDeleteVip t v ok)).pending = st.pending ∧
    (runOp st (LBOp.opCreatePool t p ok)).pending = st.pending ∧
    (runOp st (LBOp.opUpdatePool t op2 p ok)).pending = st.pending ∧
    (runOp st (LBOp.opDeletePool t p ok)).pending = st.pending ∧
    (runOp st (LBOp.opCreateMember t m ok)).pending = st.pending ∧
    (runOp st (LBOp.opUpdateMember t om m ok)).pending = st.pending ∧
    (runOp st (LBOp.opDeleteMember t m ok)).pending = st.pending ∧
    (runOp st (LBOp.opCreateMonitor t h pid ok)).pending = st.pending ∧
    (runOp st (LBOp.opUpdateMonitor t oh h pid ok)).pending = st.pending ∧
    (runOp st (LBOp.opDeleteMonitor t h pid ok)).pending = st.pending ∧
    (remote vid = none → (refresh_vip_step remote st vid).1.pending = st.pending) ∧
    (remote vid = some PENDING_CREATE →
      (refresh_vip_step remote st vid).1.pending = st.pending) ∧
    (remote vid = some s → s ≠ PENDING_CREATE → vid ∈ st.pending →
      (refresh_vip_step remote st vid).1.pending = st.pending.erase vid) := by
  refine ⟨?_, ?_, ?_, ?_, ?_, ?_, ?_, ?_, ?_, ?_, ?_, ?_, ?_,
    fun hr => ?_, fun hr => ?_, fun hr hs hm => ?_⟩
  all_goals try
    cases ok <;>
      simp [runOp, applyEffects, applyWrite, applyDelete, runEx, create_vip, update_vip,
        delete_vip, create_pool, update_pool, delete_pool, create_member, update_member,
        delete_member, create_pool_health_monitor, update_pool_health_monitor,
        delete_pool_health_monitor, create_resource, update_resource, remove_resource]
  · simp [step_skip remote st vid hr]
  · simp [step_pending remote st vid hr]
  · simp [step_converge remote st vid s hr hs hm]

/-- C9 witness: with `v1` tracked and `ACTIVE` remotely, the convergence
step erases `v1`'s first occurrence from the pending list. -/
theorem C9_witness :
    (refresh_vip_step rrActive stW "v1").1.pending = stW.pending.erase "v1" :=
  (C9_pending_transitions "t" vip1 vip1 ⟨"p"⟩ ⟨"p"⟩ ⟨"m"⟩ ⟨"m"⟩ ⟨"h"⟩ ⟨"h"⟩ "p1" true stW
      rrActive "v1" "ACTIVE").2.2.2.2.2.2.2.2.2.2.2.2.2.2.2 rfl (by decide) (by decide)

/-- C10: when the convergence pass meets a VIP that the store still shows
as `PENDING_CREATE`, whose remote status has left `PENDING_CREATE`, but
whose id is absent from the in-process pending list (as after a process
restart), it writes the remote status to the store and then raises an
uncaught `ValueError` from `list.remove`, aborting the remainder of the
pass. -/
theorem C10_missing_pending_aborts (remote : String → Option String) (st : LBState)
    (v s : String) (rest : List String)
    (hcand : (st.vips.filter (fun pr => pr.2 == PENDING_CREATE)).map Prod.fst = v :: rest)
    (hr : remote v = some s) (hs : s ≠ PENDING_CREATE) (hm : v ∉ st.pending) :
    refresh_vip_status remote st =
      ({ st with vips := assocUpdate st.vips v s }, some PyExc.valueError) := by
  unfold refresh_vip_status
  rw [hcand]
  simp [refresh_vip_loop, step_missing remote st v s hr hs hm]

/-- A restarted process: the store still shows `v1` pending but the
in-memory pending list is empty. -/
def stRestart : LBState := ⟨[("v1", "PENDING_CREATE")], [], [], [], []⟩

/-- C10 witness: on the restart state with remote status `ACTIVE`, the
pass writes `ACTIVE` for `v1` and aborts with `ValueError`. -/
theorem C10_witness :
    refresh_vip_status rrActive stRestart =
      ({ stRestart with vips := assocUpdate stRestart.vips "v1" "ACTIVE" },
        some PyExc.valueError) :=
  C10_missing_pending_aborts rrActive stRestart "v1" "ACTIVE" [] (by decide) rfl
    (by decide) (by decide)

end NSDriver
